import Mathlib

/-!
Verification of the audio client (src/index.tsx, src/analyser.ts).

The development shallowly embeds the stateful parts of the component
`GdmLiveAudio` and the class `Analyser`:

* the playback scheduler (fields `nextStartTime` and `sources`, methods
  `playAudio` and the `interrupted` branch of `handleMessage`) is embedded
  as an event-step semantics `stepSched`, with the decode suspension point
  of `playAudio` made explicit (an `arrive` event performs the cursor clamp
  that precedes `await decodeAudioData`, a `resume` event performs the
  source start, cursor advance and set insertion that follow it);
* the component state touched by the lifecycle methods
  (`stopConversation`, `stopRecording`, `stopCamera`, `startRecording`,
  `applySettingsAndResetSession`, the session `onerror`/`onclose`
  callbacks and the transcription branches of `handleMessage`) is embedded
  as a record `AppState` with one pure transition function per method;
* the capture pipeline `onaudioprocess` callback and its interaction with
  `sessionPromise.then` is embedded as an event-step semantics `stepCap`
  with an explicit queue of registered promise callbacks;
* the class `Analyser` is embedded with an explicit allocation identity
  for its `dataArray`.

Times and durations are rationals.  Audio payloads are irrelevant to the
claims and are elided; a chunk is represented by its arrival clock time
and its decoded buffer duration.
-/

/-- Cursor clamp performed at the top of `playAudio`
(`this.nextStartTime = Math.max(this.nextStartTime, this.outputAudioContext.currentTime)`). -/
def schedStart (cursor t : ℚ) : ℚ := max cursor t

/-- State of the playback scheduler: the cursor `nextStartTime`, the
`playAudio` calls currently suspended at `await decodeAudioData`
(source id together with decoded duration), the in-flight set `sources`
(by id), the log of started sources with their scheduled start times, and
the log of sources that received `stop()`. -/
structure Sched2 where
  nextStartTime : ℚ
  pending : List (Nat × ℚ)
  sources : List Nat
  started : List (Nat × ℚ)
  stopped : List Nat
deriving DecidableEq

/-- Scheduler events: `arrive t d id` is a `playAudio` call entered at
output-clock time `t` for a chunk of duration `d` (it runs the cursor
clamp and suspends at the decode); `resume id` is the decode resolving
(the suspended call starts its source at the current cursor, advances the
cursor by the duration, and adds the source to the set — in that order,
as in lines 469-475 of the source); `interrupt` is the
`serverContent.interrupted` branch of `handleMessage` (stop every source
in the set, clear the set, reset the cursor to zero). -/
inductive SchedEv where
  | arrive (t d : ℚ) (id : Nat)
  | resume (id : Nat)
  | interrupt
deriving DecidableEq

def stepSched (s : Sched2) : SchedEv → Sched2
  | .arrive t d id =>
      { s with nextStartTime := schedStart s.nextStartTime t
               pending := s.pending ++ [(id, d)] }
  | .resume id =>
      match s.pending.find? (fun p => p.1 == id) with
      | some p =>
          { s with started := s.started ++ [(p.1, s.nextStartTime)]
                   nextStartTime := s.nextStartTime + p.2
                   sources := s.sources ++ [p.1]
                   pending := s.pending.eraseP (fun q => q.1 == id) }
      | none => s
  | .interrupt =>
      { s with stopped := s.stopped ++ s.sources
               sources := []
               nextStartTime := 0 }

def runSched (s : Sched2) (evs : List SchedEv) : Sched2 := evs.foldl stepSched s

/-- Start times computed by an uninterleaved sequence of `playAudio`
calls: each chunk `(t, d)` clamps the cursor to `max cursor t`, starts at
the clamped value, and advances the cursor by `d`.  This is the cursor
recursion of lines 459-474 of the source when each decode completes
before the next chunk arrives. -/
def startsAux (cursor : ℚ) : List (ℚ × ℚ) → List ℚ
  | [] => []
  | (t, d) :: rest => schedStart cursor t :: startsAux (schedStart cursor t + d) rest

/-- Reference sequence of back-to-back start times from a base instant:
each chunk starts exactly where the previous one ends. -/
def cumStarts (c : ℚ) : List (ℚ × ℚ) → List ℚ
  | [] => []
  | (_, d) :: rest => c :: cumStarts (c + d) rest

/-- Timeliness of a chunk sequence relative to a cursor: each chunk
arrives no later than the scheduled end of its predecessor, so the clamp
never moves the cursor. -/
def timelyAfter (c : ℚ) : List (ℚ × ℚ) → Prop
  | [] => True
  | (t, d) :: rest => t ≤ c ∧ timelyAfter (c + d) rest

/-- Connection state of the session (field `sessionState` of the
component, values `idle | connecting | connected | error`). -/
inductive SessState where
  | idle
  | connecting
  | connected
  | errored
deriving DecidableEq

/-- One completed turn in the transcription log (interface
`TranscriptionEntry`, speaker `You` or `Gemini`). -/
structure TranscriptionEntry where
  speaker : String
  text : String
deriving DecidableEq

/-- State of a `MediaRecorder` handle (`recording` or `inactive`). -/
inductive RecState where
  | recording
  | inactive
deriving DecidableEq

/-- Component state of `GdmLiveAudio` touched by the lifecycle methods.
Media handles (`mediaStream`, `sourceNode`, `scriptProcessorNode`,
`videoStream`, `frameIntervalRef`, `screenStream`,
`recordingMixContext`) are modelled by their non-nullness; the
`mediaRecorder` handle carries its recorder state when present.
`sessionGen` numbers the successive sessions created by `initSession`
(`sessionPromise` points at generation `sessionGen`), and `closedGens`
logs the generations on which `close()` has been called.  The playback
fields `nextStartTime` and `sources` are modelled separately by
`Sched2`. -/
structure AppState where
  isConversing : Bool
  isCameraOn : Bool
  isRecording : Bool
  sessionState : SessState
  status : String
  error : String
  transcriptionHistory : List TranscriptionEntry
  currentUserTranscription : String
  currentModelTranscription : String
  currentVoice : String
  currentSystemInstruction : String
  pendingVoice : String
  pendingSystemInstruction : String
  _currentInput : String
  _currentOutput : String
  mediaStream : Bool
  sourceNode : Bool
  scriptProcessorNode : Bool
  videoStream : Bool
  frameIntervalRef : Bool
  mediaRecorder : Option RecState
  recordedChunks : Nat
  screenStream : Bool
  recordingMixContext : Bool
  sessionGen : Nat
  closedGens : List Nat
deriving DecidableEq

/-- Method `updateStatus`: set `status`, clear `error`. -/
def updateStatus (msg : String) (s : AppState) : AppState :=
  { s with status := msg, error := "" }

/-- Method `updateError`: set `error`, clear `status`. -/
def updateError (msg : String) (s : AppState) : AppState :=
  { s with error := msg, status := "" }

/-- Method `stopRecording` (lines 770-784): stop the recorder if it is
active, stop and drop the screen stream, close and drop the recording
mix context, and always reset `isRecording`.  The asynchronous `onstop`
callback of the recorder (assembling and downloading the chunks) runs in
a later turn and is not modelled. -/
def stopRecording (s : AppState) : AppState :=
  let s := match s.mediaRecorder with
    | some RecState.recording =>
        updateStatus "Recording stopped. Download will start shortly."
          { s with mediaRecorder := some RecState.inactive }
    | _ => s
  let s := if s.screenStream then { s with screenStream := false } else s
  let s := if s.recordingMixContext then { s with recordingMixContext := false } else s
  { s with isRecording := false }

/-- Method `stopConversation` (lines 536-554): stop any recording, clear
the conversing flag (with a status update) if set, then disconnect and
null out the script processor, the source node and the microphone
stream, each only if present. -/
def stopConversation (s : AppState) : AppState :=
  let s := stopRecording s
  let s := if s.isConversing then
      updateStatus "Conversation stopped." { s with isConversing := false }
    else s
  let s := if s.scriptProcessorNode then { s with scriptProcessorNode := false } else s
  let s := if s.sourceNode then { s with sourceNode := false } else s
  if s.mediaStream then { s with mediaStream := false } else s

/-- Method `stopCamera` (lines 608-620): a no-op unless the camera is
on; otherwise clear the flag, stop and drop the video stream, and clear
the frame interval. -/
def stopCamera (s : AppState) : AppState :=
  if !s.isCameraOn then s
  else
    let s := { s with isCameraOn := false }
    let s := if s.videoStream then { s with videoStream := false } else s
    if s.frameIntervalRef then { s with frameIntervalRef := false } else s

/-- Session `onerror` callback registered by `initSession` (lines
371-375): set `sessionState` to error, surface the message via
`updateError`, and call `stopConversation`. -/
def onSessionError (msg : String) (s : AppState) : AppState :=
  stopConversation
    (updateError ("Connection Error: " ++ msg) { s with sessionState := SessState.errored })

/-- Session `onclose` callback registered by `initSession` (lines
376-380): set `sessionState` to idle, update the status, and call
`stopConversation`. -/
def onSessionClose (s : AppState) : AppState :=
  stopConversation
    (updateStatus "Connection closed." { s with sessionState := SessState.idle })

/-- Method `startRecording` (lines 681-768), with the outcome of the
`getDisplayMedia` request supplied as `grant`.  Returns the new state
and whether screen capture was requested at all.  The guard at lines
682-685 returns early with a user-visible error when no conversation is
active. -/
def startRecording (grant : Bool) (s : AppState) : AppState × Bool :=
  if s.isConversing = false then
    (updateError "Start a conversation before recording." s, false)
  else
    let s := updateStatus "Requesting screen capture permission..." s
    if grant then
      ({ s with screenStream := true
                recordedChunks := 0
                recordingMixContext := true
                mediaRecorder := some RecState.recording
                isRecording := true
                status := "Recording session..."
                error := "" }, true)
    else
      ({ s with error := "Screen capture failed."
                status := ""
                isRecording := false }, true)

/-- Inbound message shape seen by `handleMessage` for the transcription
and turn-control branches (fields of `message.serverContent`).  The
audio and tool-call branches act on the scheduler and the session and
are modelled separately. -/
structure LiveMsg where
  inputTranscription : Option String
  outputTranscription : Option String
  turnComplete : Bool
deriving DecidableEq

/-- JavaScript `String.prototype.trim`: strip leading and trailing
whitespace.  Written by structural recursion over the character list so
that it evaluates inside the kernel. -/
def jsTrim (s : String) : String :=
  String.mk (((s.data.dropWhile Char.isWhitespace).reverse.dropWhile
    Char.isWhitespace).reverse)

/-- Branch of `handleMessage` for `serverContent.turnComplete` (lines
437-449): append a `You` entry if the accumulated input text is
non-blank (JavaScript truthiness of `trim()`), then a `Gemini` entry if
the accumulated output text is non-blank, then clear both accumulators
and both interim display fields. -/
def handleTurnComplete (s : AppState) : AppState :=
  let history := s.transcriptionHistory
  let history := if jsTrim s._currentInput ≠ "" then
      history ++ [⟨"You", s._currentInput⟩] else history
  let history := if jsTrim s._currentOutput ≠ "" then
      history ++ [⟨"Gemini", s._currentOutput⟩] else history
  { s with transcriptionHistory := history
           _currentInput := ""
           _currentOutput := ""
           currentUserTranscription := ""
           currentModelTranscription := "" }

/-- Transcription and turn-control branches of `handleMessage` (lines
428-449), in source order: append partial input transcription to the
user accumulator, append partial output transcription to the assistant
accumulator, then flush on turn completion. -/
def handleCtl (m : LiveMsg) (s : AppState) : AppState :=
  let s := match m.inputTranscription with
    | some txt =>
        { s with _currentInput := s._currentInput ++ txt
                 currentUserTranscription := s._currentInput ++ txt }
    | none => s
  let s := match m.outputTranscription with
    | some txt =>
        { s with _currentOutput := s._currentOutput ++ txt
                 currentModelTranscription := s._currentOutput ++ txt }
    | none => s
  if m.turnComplete then handleTurnComplete s else s

/-- Message delivery: the `onmessage` callback of every session created
by `initSession` routes to the same `handleMessage` of the single
component instance; the handler does not inspect which session
generation the message originated from, so the originating generation is
ignored. -/
def handleCtlFrom (_gen : Nat) (m : LiveMsg) (s : AppState) : AppState :=
  handleCtl m s

/-- First half of `applySettingsAndResetSession` (lines 638-639), on the
confirmed path: stop the conversation, then stop the camera.  The
method then suspends at `await this.sessionPromise`. -/
def applyPart1 (s : AppState) : AppState :=
  stopCamera (stopConversation s)

/-- Second half of `applySettingsAndResetSession` (lines 641-651), after
the awaited session resolves: close the old session, promote the
pending settings, clear the transcription history (the in-progress
accumulators are not touched), update the status, and start a new
session via `initSession` (which sets `connecting` and its own
status). -/
def applyPart2 (s : AppState) : AppState :=
  let s := { s with closedGens := s.closedGens ++ [s.sessionGen] }
  let s := { s with currentVoice := s.pendingVoice
                    currentSystemInstruction := s.pendingSystemInstruction
                    transcriptionHistory := [] }
  let s := updateStatus "Settings applied. Reconnecting..." s
  let s := { s with sessionState := SessState.connecting
                    sessionGen := s.sessionGen + 1 }
  updateStatus "Connecting to Gemini..." s

/-- Method `applySettingsAndResetSession` with no other turn interleaved
at its suspension point (the `window.confirm` prompt is UI and is taken
as confirmed). -/
def applySettingsAndResetSession (s : AppState) : AppState :=
  applyPart2 (applyPart1 s)

/-- Component state at construction time (field initialisers of
`GdmLiveAudio` and `initClient`). -/
def app0 : AppState :=
  { isConversing := false
    isCameraOn := false
    isRecording := false
    sessionState := SessState.idle
    status := ""
    error := ""
    transcriptionHistory := []
    currentUserTranscription := ""
    currentModelTranscription := ""
    currentVoice := "Zephyr"
    currentSystemInstruction := "You are a helpful and creative AI assistant."
    pendingVoice := "Zephyr"
    pendingSystemInstruction := "You are a helpful and creative AI assistant."
    _currentInput := ""
    _currentOutput := ""
    mediaStream := false
    sourceNode := false
    scriptProcessorNode := false
    videoStream := false
    frameIntervalRef := false
    mediaRecorder := none
    recordedChunks := 0
    screenStream := false
    recordingMixContext := false
    sessionGen := 0
    closedGens := [] }

/-- State of the capture pipeline and its interaction with the session
promise: whether the conversation flag is set, whether the script
processor is still connected (its `onaudioprocess` can fire only then),
the callbacks registered on `sessionPromise.then` whose send has not yet
run (by captured block), the blocks actually submitted via
`sendRealtimeInput`, whether `stopConversation` has completed, the
blocks submitted after that completion, and a snapshot of the registered
callbacks at the moment the stop completed. -/
structure CapState where
  isConversing : Bool
  processorConnected : Bool
  queuedSends : List Nat
  submitted : List Nat
  stopDone : Bool
  submittedAfterStop : List Nat
  queuedAtStop : List Nat
deriving DecidableEq

/-- Capture events: `block b` is one `onaudioprocess` callback for block
`b` (lines 515-521: it returns early unless `isConversing`, otherwise it
registers a send on `sessionPromise.then`); `deliver` is the oldest
registered promise callback running (the `sendRealtimeInput` itself,
which performs no staleness check); `stop` is `stopConversation`
completing (conversing flag cleared, processor disconnected). -/
inductive CapEv where
  | block (b : Nat)
  | deliver
  | stop
deriving DecidableEq

def stepCap (s : CapState) : CapEv → CapState
  | .block b =>
      if s.processorConnected && s.isConversing then
        { s with queuedSends := s.queuedSends ++ [b] }
      else s
  | .deliver =>
      match s.queuedSends with
      | [] => s
      | b :: rest =>
          { s with queuedSends := rest
                   submitted := s.submitted ++ [b]
                   submittedAfterStop :=
                     if s.stopDone then s.submittedAfterStop ++ [b]
                     else s.submittedAfterStop }
  | .stop =>
      { s with isConversing := false
               processorConnected := false
               stopDone := true
               queuedAtStop := if s.stopDone then s.queuedAtStop else s.queuedSends }

def runCap (s : CapState) (evs : List CapEv) : CapState := evs.foldl stepCap s

/-- Capture pipeline before any event: conversation active, processor
connected, nothing queued or submitted. -/
def capInit : CapState :=
  { isConversing := true
    processorConnected := true
    queuedSends := []
    submitted := []
    stopDone := false
    submittedAfterStop := []
    queuedAtStop := [] }

/-- Invariant of the capture semantics: before the stop nothing has been
submitted after it; once the stop has completed, the flags are down and
both the still-queued sends and the post-stop submissions come from the
sends that were already queued when the stop completed. -/
def capInv (s : CapState) : Prop :=
  (s.stopDone = false → s.submittedAfterStop = []) ∧
  (s.stopDone = true →
    s.isConversing = false ∧ s.processorConnected = false ∧
    s.queuedSends ⊆ s.queuedAtStop ∧ s.submittedAfterStop ⊆ s.queuedAtStop)

/-- Underlying analysis node created by the `Analyser` constructor
(src/analyser.ts lines 14-18) with its tuning fixed at construction. -/
structure AnalyserNodeModel where
  fftSize : Nat
  smoothingTimeConstant : ℚ
  minDecibels : ℤ
  maxDecibels : ℤ
deriving DecidableEq

/-- Web Audio semantics of `AnalyserNode.frequencyBinCount`: half the
transform size. -/
def frequencyBinCount (a : AnalyserNodeModel) : Nat := a.fftSize / 2

/-- Class `Analyser` (src/analyser.ts lines 8-31).  The `Uint8Array`
allocated once in the constructor is modelled by its contents
`dataArray` together with an allocation identity `arrayId`; only a
reallocation would change `arrayId`. -/
structure Analyser where
  analyser : AnalyserNodeModel
  bufferLength : Nat
  arrayId : Nat
  dataArray : List Nat

/-- Constructor of `Analyser`: transform size 256, smoothing 0.6,
decibel range [-90, -10]; `bufferLength` is the frequency bin count and
`dataArray` is a fresh zero-filled array of that length. -/
def Analyser.create (freshId : Nat) : Analyser :=
  let node : AnalyserNodeModel :=
    { fftSize := 256
      smoothingTimeConstant := 3 / 5
      minDecibels := -90
      maxDecibels := -10 }
  { analyser := node
    bufferLength := frequencyBinCount node
    arrayId := freshId
    dataArray := List.replicate (frequencyBinCount node) 0 }

/-- Method `update`: `getByteFrequencyData` overwrites the array in
place with one byte per bin (the byte values come from the audio
environment, abstracted as `freq`); the array is not reallocated. -/
def Analyser.update (a : Analyser) (freq : Nat → Nat) : Analyser :=
  { a with dataArray := (List.range a.bufferLength).map (fun i => freq i % 256) }

/-- Accessor `data`: returns the stored array itself (its identity and
its contents), not a copy. -/
def Analyser.data (a : Analyser) : Nat × List Nat := (a.arrayId, a.dataArray)

/-- Component state with the conversation, the camera frame pipeline and
the recording mixer all active on a connected session. -/
def c4state : AppState :=
  { app0 with isConversing := true
              isCameraOn := true
              isRecording := true
              sessionState := SessState.connected
              mediaStream := true
              sourceNode := true
              scriptProcessorNode := true
              videoStream := true
              frameIntervalRef := true
              mediaRecorder := some RecState.recording
              screenStream := true
              recordingMixContext := true }

/-- Component state whose user accumulator holds only whitespace. -/
def c6state : AppState := { app0 with _currentInput := " " }

/-- Component state with completed user and assistant text accumulated. -/
def c6state2 : AppState := { app0 with _currentInput := "hi", _currentOutput := "yo" }

/-- Component state with an active conversation and camera, voice still
`Zephyr` with pending voice `Puck`, on session generation 0. -/
def c7state : AppState :=
  { app0 with isConversing := true
              isCameraOn := true
              sessionState := SessState.connected
              mediaStream := true
              sourceNode := true
              scriptProcessorNode := true
              videoStream := true
              frameIntervalRef := true
              pendingVoice := "Puck" }

theorem startsAux_eq_cumStarts (l : List (ℚ × ℚ)) :
    ∀ c : ℚ, timelyAfter c l → startsAux c l = cumStarts c l := by
  induction l with
  | nil => intro c _; rfl
  | cons td rest ih =>
      intro c h
      obtain ⟨t, d⟩ := td
      obtain ⟨h1, h2⟩ := h
      simp only [startsAux, cumStarts, schedStart, max_eq_left h1]
      exact congrArg _ (ih _ h2)

theorem cumStarts_get (l : List (ℚ × ℚ)) :
    ∀ (c : ℚ) (i : ℕ), i < l.length →
      (cumStarts c l).get? i = some (c + ((l.take i).map Prod.snd).sum) := by
  induction l with
  | nil => intro c i h; simp at h
  | cons td rest ih =>
      intro c i h
      obtain ⟨t, d⟩ := td
      cases i with
      | zero => simp [cumStarts]
      | succ j =>
          have hj : j < rest.length := by simpa using h
          simp only [cumStarts, List.get?_cons_succ, List.take_succ_cons,
            List.map_cons, List.sum_cons]
          rw [ih (c + d) j hj]
          ring_nf

theorem cumStarts_length (l : List (ℚ × ℚ)) :
    ∀ c : ℚ, (cumStarts c l).length = l.length := by
  induction l with
  | nil => intro c; rfl
  | cons td rest ih =>
      intro c
      obtain ⟨t, d⟩ := td
      simp [cumStarts, ih]

/-- C1 (counterexample).  The start time of chunk n+1 is not always the
start time of chunk n plus the duration of chunk n: from a cursor at 0,
a chunk arriving at clock 0 with duration 1 starts at 0, but a second
chunk arriving at clock 2 (later than the scheduled end 1) is clamped to
start at 2, not at 0 + 1.  The start times computed by `playAudio` do
depend on the arrival times of the chunks. -/
theorem c1_start_times_counterexample :
    (startsAux 0 [(0, 1), (2, 1)]).get? 0 = some 0 ∧
    (startsAux 0 [(0, 1), (2, 1)]).get? 1 = some 2 ∧
    (2 : ℚ) ≠ 0 + 1 := by
  refine ⟨?_, ?_, by norm_num⟩ <;> norm_num [startsAux, schedStart]

/-- C1 (amended).  For a sequence of chunks enqueued via `playAudio` with
no interruption in between, in which every chunk after the first arrives
no later than the scheduled end of its predecessor (delivery at least as
fast as real time), the start time computed for chunk n+1 equals the
start time computed for chunk n plus the duration of chunk n, for all n. -/
theorem c1_start_times_amended (c t0 d0 : ℚ) (rest : List (ℚ × ℚ))
    (htl : timelyAfter (schedStart c t0 + d0) rest)
    (i : ℕ) (td : ℚ × ℚ) (si si' : ℚ)
    (hd : ((t0, d0) :: rest).get? i = some td)
    (h1 : (startsAux c ((t0, d0) :: rest)).get? i = some si)
    (h2 : (startsAux c ((t0, d0) :: rest)).get? (i + 1) = some si') :
    si' = si + td.2 := by
  have hrw : startsAux c ((t0, d0) :: rest)
      = cumStarts (schedStart c t0) ((t0, d0) :: rest) := by
    simp only [startsAux, cumStarts]
    exact congrArg _ (startsAux_eq_cumStarts rest _ htl)
  rw [hrw] at h1 h2
  obtain ⟨hi, -⟩ := List.get?_eq_some.mp hd
  have hi1 : i + 1 < ((t0, d0) :: rest).length := by
    obtain ⟨hlt, -⟩ := List.get?_eq_some.mp h2
    simpa [cumStarts_length] using hlt
  rw [cumStarts_get _ _ i hi] at h1
  rw [cumStarts_get _ _ (i + 1) hi1] at h2
  have hd' : ((t0, d0) :: rest)[i]? = some td := by
    rw [← List.get?_eq_getElem?]
    exact hd
  have htake : ((t0, d0) :: rest).take (i + 1)
      = ((t0, d0) :: rest).take i ++ [td] := by
    rw [List.take_succ, hd']
    rfl
  rw [htake] at h2
  simp only [List.map_append, List.sum_append, List.map_cons, List.map_nil,
    List.sum_cons, List.sum_nil] at h2
  have e1 := Option.some.inj h1
  have e2 := Option.some.inj h2
  linarith

/-- Witness for C1 (amended): three chunks of duration 1/2 all arriving
at clock 10; the second start is the first start plus 1/2. -/
theorem c1_start_times_amended_witness :
    ((21 : ℚ) / 2) = 10 + ((10 : ℚ), (1 : ℚ) / 2).2 :=
  c1_start_times_amended 0 10 (1 / 2) [(10, 1 / 2), (10, 1 / 2)]
    (by norm_num [timelyAfter, schedStart]) 0 (10, 1 / 2) 10 (21 / 2)
    (by norm_num) (by norm_num [startsAux, schedStart])
    (by norm_num [startsAux, schedStart])

/-- C2.  After the `interrupted` branch of `handleMessage` resets the
cursor to zero, the next chunk enqueued via `playAudio` (clock `t`,
duration `d`, no other decode pending) is started at `max 0 t`, which is
at or after the current output-clock time `t` — never at the
pre-interruption cursor value. -/
theorem c2_interrupt_then_enqueue (s : Sched2) (t d : ℚ) (id : Nat)
    (hp : s.pending = []) :
    (stepSched s .interrupt).nextStartTime = 0 ∧
    (runSched s [.interrupt, .arrive t d id, .resume id]).started
      = s.started ++ [(id, schedStart 0 t)] ∧
    t ≤ schedStart 0 t := by
  refine ⟨rfl, ?_, le_max_right 0 t⟩
  simp [runSched, stepSched, hp, List.find?]

/-- Witness for C2: interrupt from a mid-playback state, then enqueue a
chunk at clock 4; it starts at 4. -/
theorem c2_interrupt_then_enqueue_witness :
    (stepSched ⟨9, [], [3], [(3, 7)], []⟩ SchedEv.interrupt).nextStartTime = 0 ∧
    (runSched ⟨9, [], [3], [(3, 7)], []⟩
        [.interrupt, .arrive 4 1 8, .resume 8]).started
      = [((3 : Nat), (7 : ℚ))] ++ [(8, schedStart 0 4)] ∧
    (4 : ℚ) ≤ schedStart 0 4 :=
  c2_interrupt_then_enqueue ⟨9, [], [3], [(3, 7)], []⟩ 4 1 8 rfl

/-- C3 (counterexample).  An interruption handled while a `playAudio`
call is suspended at its decode does resurrect the in-flight chunk: with
a chunk arriving at clock 5, then an interrupt, then the decode
resolving, the final state has the source in the in-flight set, started
at the reset cursor 0, and never stopped.  The in-flight set and cursor
updates of one `playAudio` are not atomic across its decode suspension. -/
theorem c3_race_counterexample :
    (runSched ⟨0, [], [], [], []⟩ [.arrive 5 1 0, .interrupt, .resume 0]).sources = [0] ∧
    ((0 : Nat), (0 : ℚ)) ∈
      (runSched ⟨0, [], [], [], []⟩ [.arrive 5 1 0, .interrupt, .resume 0]).started ∧
    (runSched ⟨0, [], [], [], []⟩ [.arrive 5 1 0, .interrupt, .resume 0]).stopped = [] := by
  refine ⟨?_, ?_, ?_⟩ <;>
    simp [runSched, stepSched, schedStart, List.find?]

/-- C3 (amended).  Handling an interruption stops every source in the
in-flight set at that moment, empties the set and resets the cursor to
zero; but it is not atomic with respect to a `playAudio` suspended at its
decode: such a call survives the interrupt in the pending set and, on
resume, still starts its source and adds it to the in-flight set, so that
chunk plays after the interrupt. -/
theorem c3_race_amended (s : Sched2) (id : Nat) (d : ℚ)
    (hmem : (id, d) ∈ s.pending) :
    (stepSched s .interrupt).sources = [] ∧
    (stepSched s .interrupt).nextStartTime = 0 ∧
    (∀ j ∈ s.sources, j ∈ (stepSched s .interrupt).stopped) ∧
    (stepSched s .interrupt).pending = s.pending ∧
    id ∈ (stepSched (stepSched s .interrupt) (.resume id)).sources := by
  have hex : ∃ p, s.pending.find? (fun p => p.1 == id) = some p := by
    have hsome : (s.pending.find? (fun p => p.1 == id)).isSome :=
      List.find?_isSome.mpr ⟨(id, d), hmem, by simp⟩
    exact Option.isSome_iff_exists.mp hsome
  obtain ⟨p, hp⟩ := hex
  have hpid : p.1 = id := by simpa using List.find?_some hp
  refine ⟨rfl, rfl, ?_, rfl, ?_⟩
  · intro j hj
    simp [stepSched, hj]
  · simp [stepSched, hp, hpid]

/-- Witness for C3 (amended): a state with source 5 in flight and source
7 pending at its decode; after the interrupt and the resume, source 7 is
in the in-flight set. -/
theorem c3_race_amended_witness :
    (7 : Nat) ∈
      (stepSched (stepSched ⟨3, [(7, 2)], [5], [], []⟩ SchedEv.interrupt)
        (.resume 7)).sources :=
  (c3_race_amended ⟨3, [(7, 2)], [5], [], []⟩ 7 2 (by simp)).2.2.2.2

theorem stepCap_inv (s : CapState) (e : CapEv) (h : capInv s) :
    capInv (stepCap s e) := by
  obtain ⟨hno, hyes⟩ := h
  cases e with
  | block b =>
      simp only [stepCap]
      split
      · rename_i hcond
        refine ⟨fun h0 => hno h0, fun h1 => ?_⟩
        obtain ⟨ha, hb, hc, hd⟩ := hyes h1
        rw [hb] at hcond
        simp at hcond
      · exact ⟨hno, hyes⟩
  | deliver =>
      simp only [stepCap]
      split
      · exact ⟨hno, hyes⟩
      · rename_i b rest hq
        constructor
        · intro h0
          replace h0 : s.stopDone = false := h0
          show (if s.stopDone = true then s.submittedAfterStop ++ [b]
              else s.submittedAfterStop) = []
          simp [h0, hno h0]
        · intro h1
          replace h1 : s.stopDone = true := h1
          obtain ⟨ha, hb, hc, hd⟩ := hyes h1
          refine ⟨ha, hb, ?_, ?_⟩
          · intro x hx
            exact hc (by rw [hq]; exact List.mem_cons_of_mem _ hx)
          · show (if s.stopDone = true then s.submittedAfterStop ++ [b]
                else s.submittedAfterStop) ⊆ s.queuedAtStop
            have hred : (if s.stopDone = true then s.submittedAfterStop ++ [b]
                else s.submittedAfterStop) = s.submittedAfterStop ++ [b] := by
              simp [h1]
            rw [hred]
            intro x hx
            rcases List.mem_append.mp hx with hx | hx
            · exact hd hx
            · simp only [List.mem_singleton] at hx
              subst hx
              exact hc (by rw [hq]; exact List.mem_cons_self _ _)
  | stop =>
      simp only [stepCap]
      constructor
      · intro h0
        exact absurd h0 (by simp)
      · intro _
        refine ⟨rfl, rfl, ?_, ?_⟩
        · cases hs : s.stopDone
          · simp only [hs]
            simp
          · simp only [hs, if_pos rfl]
            exact (hyes hs).2.2.1
        · cases hs : s.stopDone
          · simp only [hs]
            simp [hno hs]
          · simp only [hs, if_pos rfl]
            exact (hyes hs).2.2.2

theorem runCap_inv (evs : List CapEv) :
    ∀ s : CapState, capInv s → capInv (runCap s evs) := by
  induction evs with
  | nil => intro s h; exact h
  | cons e rest ih => intro s h; exact ih _ (stepCap_inv s e h)

theorem capInit_inv : capInv capInit := by
  constructor
  · intro _; rfl
  · intro h; exact absurd h (by decide)

/-- C5 (counterexample).  A captured block whose submission was pending
on the session promise when `stopConversation` completed is still
submitted afterwards: block 7 passes the `isConversing` check and
registers its send, the stop completes, then the registered callback
runs and submits the block.  The `isConversing` staleness check happens
at capture time, not at submission time. -/
theorem c5_inflight_counterexample :
    (runCap capInit [.block 7, .stop, .deliver]).submittedAfterStop ≠ [] := by
  decide

/-- C5 (amended).  Every block submitted after `stopConversation`
completed had its submission already registered on the session promise
when the stop completed; in particular no block captured after the stop
is ever submitted (the processor is disconnected and the `isConversing`
guard drops late blocks). -/
theorem c5_inflight_amended (evs : List CapEv) (b : Nat)
    (hb : b ∈ (runCap capInit evs).submittedAfterStop) :
    b ∈ (runCap capInit evs).queuedAtStop := by
  obtain ⟨hno, hyes⟩ := runCap_inv evs capInit capInit_inv
  cases hs : (runCap capInit evs).stopDone
  · rw [hno hs] at hb
    cases hb
  · exact (hyes hs).2.2.2 hb

/-- Witness for C5 (amended): block 7, in flight at the stop, is indeed
among the sends that were queued when the stop completed. -/
theorem c5_inflight_amended_witness :
    7 ∈ (runCap capInit [.block 7, .stop, .deliver]).queuedAtStop :=
  c5_inflight_amended [.block 7, .stop, .deliver] 7 (by decide)

/-- C10.  For every `Analyser` and every sequence of `update` calls, the
snapshot returned by the `data` accessor is the array allocated at
construction (same identity, never copied or replaced) and has the fixed
length 128, the frequency bin count of the 256-sample transform size. -/
theorem c10_analyser_invariants (freshId : Nat) (updates : List (Nat → Nat)) :
    ((updates.foldl Analyser.update (Analyser.create freshId)).data).1 = freshId ∧
    ((updates.foldl Analyser.update (Analyser.create freshId)).data).2.length = 128 ∧
    (updates.foldl Analyser.update (Analyser.create freshId)).bufferLength = 128 := by
  suffices h : ∀ a : Analyser, a.arrayId = freshId → a.bufferLength = 128 →
      a.dataArray.length = 128 →
      (updates.foldl Analyser.update a).arrayId = freshId ∧
      (updates.foldl Analyser.update a).dataArray.length = 128 ∧
      (updates.foldl Analyser.update a).bufferLength = 128 by
    have hc := h (Analyser.create freshId) rfl rfl
      (by simp [Analyser.create, frequencyBinCount])
    exact ⟨hc.1, hc.2.1, hc.2.2⟩
  induction updates with
  | nil => intro a ha hb hl; exact ⟨ha, hl, hb⟩
  | cons f rest ih =>
      intro a ha hb _hl
      exact ih (a.update f) (by simp [Analyser.update, ha])
        (by simp [Analyser.update, hb]) (by simp [Analyser.update, hb])

theorem stopRecording_spec (s : AppState) :
    (stopRecording s).isConversing = s.isConversing ∧
    (stopRecording s).isCameraOn = s.isCameraOn ∧
    (stopRecording s).isRecording = false ∧
    (stopRecording s).sessionState = s.sessionState ∧
    (stopRecording s).transcriptionHistory = s.transcriptionHistory ∧
    (stopRecording s)._currentInput = s._currentInput ∧
    (stopRecording s)._currentOutput = s._currentOutput ∧
    (stopRecording s).currentVoice = s.currentVoice ∧
    (stopRecording s).currentSystemInstruction = s.currentSystemInstruction ∧
    (stopRecording s).pendingVoice = s.pendingVoice ∧
    (stopRecording s).pendingSystemInstruction = s.pendingSystemInstruction ∧
    (stopRecording s).sessionGen = s.sessionGen ∧
    (stopRecording s).closedGens = s.closedGens ∧
    (stopRecording s).videoStream = s.videoStream ∧
    (stopRecording s).frameIntervalRef = s.frameIntervalRef ∧
    (stopRecording s).scriptProcessorNode = s.scriptProcessorNode ∧
    (stopRecording s).sourceNode = s.sourceNode ∧
    (stopRecording s).mediaStream = s.mediaStream ∧
    (stopRecording s).screenStream = false ∧
    (stopRecording s).recordingMixContext = false := by
  unfold stopRecording updateStatus
  repeat' split <;> simp_all

theorem stopConversation_spec (s : AppState) :
    (stopConversation s).isConversing = false ∧
    (stopConversation s).isCameraOn = s.isCameraOn ∧
    (stopConversation s).isRecording = false ∧
    (stopConversation s).sessionState = s.sessionState ∧
    (stopConversation s).transcriptionHistory = s.transcriptionHistory ∧
    (stopConversation s)._currentInput = s._currentInput ∧
    (stopConversation s)._currentOutput = s._currentOutput ∧
    (stopConversation s).currentVoice = s.currentVoice ∧
    (stopConversation s).currentSystemInstruction = s.currentSystemInstruction ∧
    (stopConversation s).pendingVoice = s.pendingVoice ∧
    (stopConversation s).pendingSystemInstruction = s.pendingSystemInstruction ∧
    (stopConversation s).sessionGen = s.sessionGen ∧
    (stopConversation s).closedGens = s.closedGens ∧
    (stopConversation s).videoStream = s.videoStream ∧
    (stopConversation s).frameIntervalRef = s.frameIntervalRef ∧
    (stopConversation s).scriptProcessorNode = false ∧
    (stopConversation s).sourceNode = false ∧
    (stopConversation s).mediaStream = false := by
  obtain ⟨q1, q2, q3, q4, q5, q6, q7, q8, q9, q10, q11, q12, q13, q14,
    q15, q16, q17, q18, q19, q20⟩ := stopRecording_spec s
  simp only [stopConversation, updateStatus]
  split_ifs <;> simp_all

theorem stopCamera_spec (s : AppState) :
    (stopCamera s).isConversing = s.isConversing ∧
    (stopCamera s).isCameraOn = false ∧
    (stopCamera s).isRecording = s.isRecording ∧
    (stopCamera s).sessionState = s.sessionState ∧
    (stopCamera s).transcriptionHistory = s.transcriptionHistory ∧
    (stopCamera s)._currentInput = s._currentInput ∧
    (stopCamera s)._currentOutput = s._currentOutput ∧
    (stopCamera s).currentVoice = s.currentVoice ∧
    (stopCamera s).currentSystemInstruction = s.currentSystemInstruction ∧
    (stopCamera s).pendingVoice = s.pendingVoice ∧
    (stopCamera s).pendingSystemInstruction = s.pendingSystemInstruction ∧
    (stopCamera s).sessionGen = s.sessionGen ∧
    (stopCamera s).closedGens = s.closedGens ∧
    (stopCamera s).scriptProcessorNode = s.scriptProcessorNode ∧
    (stopCamera s).sourceNode = s.sourceNode ∧
    (stopCamera s).mediaStream = s.mediaStream := by
  simp only [stopCamera]
  split_ifs <;> simp_all

/-- C4 (evaluation at the failing input).  When the session `onerror`
(or `onclose`) callback fires with the conversation, camera and
recording all active, the cascade stops the conversation and the
recording but leaves the frame-capture pipeline running: `isCameraOn`
stays true and the frame interval keeps firing, because neither
callback nor `stopConversation` ever calls `stopCamera`. -/
theorem c4_error_leaves_camera_running :
    (onSessionError "boom" c4state).isConversing = false ∧
    (onSessionError "boom" c4state).isRecording = false ∧
    (onSessionError "boom" c4state).isCameraOn = true ∧
    (onSessionError "boom" c4state).frameIntervalRef = true ∧
    (onSessionClose c4state).isCameraOn = true ∧
    (onSessionClose c4state).frameIntervalRef = true := by
  refine ⟨?_, ?_, ?_, ?_, ?_, ?_⟩ <;> rfl

/-- C6 (counterexample).  A turn-completion message with a non-empty
(but whitespace-only) user accumulator appends no entry at all: the
source tests JavaScript truthiness of `trim()`, not plain
non-emptiness. -/
theorem c6_whitespace_counterexample :
    c6state._currentInput ≠ "" ∧
    (handleTurnComplete c6state).transcriptionHistory = [] := by
  exact ⟨by decide, by decide⟩

/-- C6 (amended).  For every turn-completion message: if only the user
accumulator is non-blank (non-empty after trimming whitespace), exactly
one entry with speaker `You` is appended; if both accumulators are
non-blank, exactly two entries are appended, the user entry before the
assistant entry; if both are blank, none is appended; and in all cases
both accumulators and both interim display fields are cleared
afterwards. -/
theorem c6_turn_complete_amended (s : AppState) :
    (jsTrim s._currentInput ≠ "" → jsTrim s._currentOutput = "" →
        (handleTurnComplete s).transcriptionHistory
          = s.transcriptionHistory ++ [⟨"You", s._currentInput⟩]) ∧
    (jsTrim s._currentInput ≠ "" → jsTrim s._currentOutput ≠ "" →
        (handleTurnComplete s).transcriptionHistory
          = s.transcriptionHistory
              ++ [⟨"You", s._currentInput⟩, ⟨"Gemini", s._currentOutput⟩]) ∧
    (jsTrim s._currentInput = "" → jsTrim s._currentOutput = "" →
        (handleTurnComplete s).transcriptionHistory = s.transcriptionHistory) ∧
    (handleTurnComplete s)._currentInput = "" ∧
    (handleTurnComplete s)._currentOutput = "" ∧
    (handleTurnComplete s).currentUserTranscription = "" ∧
    (handleTurnComplete s).currentModelTranscription = "" := by
  refine ⟨?_, ?_, ?_, rfl, rfl, rfl, rfl⟩ <;>
    intro h1 h2 <;> simp [handleTurnComplete, h1, h2]

/-- Witness for C6 (amended): with both accumulators non-blank, the two
entries are appended, user before assistant. -/
theorem c6_turn_complete_amended_witness :
    (handleTurnComplete c6state2).transcriptionHistory
      = c6state2.transcriptionHistory
          ++ [⟨"You", c6state2._currentInput⟩, ⟨"Gemini", c6state2._currentOutput⟩] :=
  (c6_turn_complete_amended c6state2).2.1 (by decide) (by decide)

/-- C7 (counterexample).  A late-arriving message of the old session
does mutate state belonging to the new session: while
`applySettingsAndResetSession` is suspended at `await
this.sessionPromise` (after stopping capture and camera, before the
close), an input-transcription message of old session generation 0 is
handled; its text lands in the user accumulator, which the apply never
clears, and the first turn-completion of new session generation 1
flushes that old-session text into the new session's history. -/
theorem c7_stale_message_counterexample :
    (handleCtlFrom 1 ⟨none, none, true⟩
        (applyPart2
          (handleCtlFrom 0 ⟨some "stale", none, false⟩
            (applyPart1 c7state)))).transcriptionHistory
      = [⟨"You", "stale"⟩] ∧
    (applyPart2 (handleCtlFrom 0 ⟨some "stale", none, false⟩
        (applyPart1 c7state))).sessionGen = 1 ∧
    (applyPart2 (handleCtlFrom 0 ⟨some "stale", none, false⟩
        (applyPart1 c7state))).currentVoice = "Puck" := by
  exact ⟨by decide, by decide, by decide⟩

/-- C7 (amended).  Applying changed settings (confirmed path, no message
interleaved) stops the capture pipeline and the camera, closes the old
session, clears the transcription history, promotes the pending voice
and system instruction, and opens a new session generation configured
with them; however the in-progress transcription accumulators are not
cleared and the message handler never checks the originating session, so
effects of old-session messages handled during the await persist into
the new session. -/
theorem c7_apply_settings_amended (s : AppState) :
    (applySettingsAndResetSession s).isConversing = false ∧
    (applySettingsAndResetSession s).isCameraOn = false ∧
    (applySettingsAndResetSession s).isRecording = false ∧
    (applySettingsAndResetSession s).transcriptionHistory = [] ∧
    (applySettingsAndResetSession s).currentVoice = s.pendingVoice ∧
    (applySettingsAndResetSession s).currentSystemInstruction
      = s.pendingSystemInstruction ∧
    (applySettingsAndResetSession s).sessionState = SessState.connecting ∧
    (applySettingsAndResetSession s).sessionGen = s.sessionGen + 1 ∧
    s.sessionGen ∈ (applySettingsAndResetSession s).closedGens ∧
    (applySettingsAndResetSession s)._currentInput = s._currentInput ∧
    (applySettingsAndResetSession s)._currentOutput = s._currentOutput := by
  simp only [applySettingsAndResetSession, applyPart2, applyPart1, updateStatus]
  simp [stopCamera_spec, stopConversation_spec]

/-- C8.  Starting a recording while no conversation is active fails with
the precondition error message, requests no screen capture, does not
start the recording, and creates no recording state: the recording flag,
screen stream, mixing context, recorder handle and chunk buffer are all
unchanged. -/
theorem c8_record_precondition (g : Bool) (s : AppState)
    (h : s.isConversing = false) :
    (startRecording g s).2 = false ∧
    (startRecording g s).1.isRecording = s.isRecording ∧
    (startRecording g s).1.screenStream = s.screenStream ∧
    (startRecording g s).1.recordingMixContext = s.recordingMixContext ∧
    (startRecording g s).1.mediaRecorder = s.mediaRecorder ∧
    (startRecording g s).1.recordedChunks = s.recordedChunks ∧
    (startRecording g s).1.error = "Start a conversation before recording." := by
  simp [startRecording, updateError, h]

/-- Witness for C8: at the freshly constructed component state (no
conversation), a recording attempt with capture permission available is
rejected without requesting capture. -/
theorem c8_record_precondition_witness :
    (startRecording true app0).2 = false ∧
    (startRecording true app0).1.isRecording = app0.isRecording ∧
    (startRecording true app0).1.screenStream = app0.screenStream ∧
    (startRecording true app0).1.recordingMixContext = app0.recordingMixContext ∧
    (startRecording true app0).1.mediaRecorder = app0.mediaRecorder ∧
    (startRecording true app0).1.recordedChunks = app0.recordedChunks ∧
    (startRecording true app0).1.error = "Start a conversation before recording." :=
  c8_record_precondition true app0 rfl

/-- C9.  Calling `stopConversation` in a state where no conversation,
recording or capture handle was ever created (all handles null, all
flags down) is a no-op: the state, in particular `sessionState`, is
unchanged, and the function is total so nothing is thrown. -/
theorem c9_stop_never_started (s : AppState)
    (h1 : s.isConversing = false) (h2 : s.scriptProcessorNode = false)
    (h3 : s.sourceNode = false) (h4 : s.mediaStream = false)
    (h5 : s.mediaRecorder = none) (h6 : s.screenStream = false)
    (h7 : s.recordingMixContext = false) (h8 : s.isRecording = false) :
    stopConversation s = s := by
  obtain ⟨cv, cam, rec, ss, st, er, th, cut, cmt, vo, si, pv, psi, ci, co,
    ms, sn, sp, vs, fi, mr, rc, scr, mix, sg, cg⟩ := s
  replace h1 : cv = false := h1
  replace h2 : sp = false := h2
  replace h3 : sn = false := h3
  replace h4 : ms = false := h4
  replace h5 : mr = none := h5
  replace h6 : scr = false := h6
  replace h7 : mix = false := h7
  replace h8 : rec = false := h8
  subst h1 h2 h3 h4 h5 h6 h7 h8
  rfl

/-- Witness for C9: at the freshly constructed component state,
`stopConversation` returns the state unchanged. -/
theorem c9_stop_never_started_witness : stopConversation app0 = app0 :=
  c9_stop_never_started app0 rfl rfl rfl rfl rfl rfl rfl rfl
